import Mathlib

/-!
Verification development for the Parkify media-transformation pipeline.

The definitions below are shallow embeddings of the TypeScript source:
the client pipelines (`src/services/openai.ts` and the historical proxy
clients), the Netlify proxy handler, the base64 data-URL payload encoder
and the proxy-side decoder, and the retry/fallback dispatch loops.
Browser and Node library behaviour that the code depends on (canvas
re-encoding, `FileReader.readAsDataURL`, `Buffer.from(_, 'base64')`,
JSON parsing outcomes, network transports) is passed in as explicit
stub parameters, mirroring how the code consumes those collaborators.
-/

namespace Parkify

/-! ## Base64 payload encoding

`FileReader.readAsDataURL` produces `data:<mime>;base64,<base64 bytes>`;
the proxy recovers the bytes with `image.split(',')[1]` and
`Buffer.from(_, 'base64')`, and the media type with the regular
expression `^data:([^;]+);base64,`. -/

/-- The standard base64 alphabet, indexed 0..63. -/
def b64Chars : List Char :=
  "ABCDEFGHIJKLMNOPQRSTUVWXYZabcdefghijklmnopqrstuvwxyz0123456789+/".data

/-- Character for a 6-bit group. -/
def sextetChar (n : Nat) : Char := b64Chars.getD n 'A'

/-- 6-bit value of an alphabet character. -/
def charSextet (c : Char) : Nat := b64Chars.indexOf c

/-- Base64 encoding of a byte list (bytes are `Nat` values below 256). -/
def encodeB64 : List Nat → List Char
  | a :: b :: c :: rest =>
      sextetChar (a / 4) :: sextetChar (a % 4 * 16 + b / 16) ::
      sextetChar (b % 16 * 4 + c / 64) :: sextetChar (c % 64) :: encodeB64 rest
  | [a, b] => [sextetChar (a / 4), sextetChar (a % 4 * 16 + b / 16), sextetChar (b % 16 * 4), '=']
  | [a] => [sextetChar (a / 4), sextetChar (a % 4 * 16), '=', '=']
  | [] => []

/-- Base64 decoding, the model of `Buffer.from(s, 'base64')` on valid input. -/
def decodeB64 : List Char → List Nat
  | c1 :: c2 :: c3 :: c4 :: rest =>
      if c3 = '=' then
        [charSextet c1 * 4 + charSextet c2 / 16]
      else if c4 = '=' then
        [charSextet c1 * 4 + charSextet c2 / 16, charSextet c2 % 16 * 16 + charSextet c3 / 4]
      else
        (charSextet c1 * 4 + charSextet c2 / 16) ::
        (charSextet c2 % 16 * 16 + charSextet c3 / 4) ::
        (charSextet c3 % 4 * 64 + charSextet c4) :: decodeB64 rest
  | _ => []

/-- Model of JavaScript `String.prototype.split(sep)` on character lists. -/
def splitOn (sep : Char) : List Char → List (List Char)
  | [] => [[]]
  | c :: rest =>
    if c = sep then [] :: splitOn sep rest
    else
      match splitOn sep rest with
      | [] => [[c]]
      | s :: ss => (c :: s) :: ss

/-- The data URL produced by `FileReader.readAsDataURL` for bytes of the
given media type: `data:<mime>;base64,<base64>`. -/
def dataUrl (mime : List Char) (bytes : List Nat) : List Char :=
  "data:".data ++ mime ++ ";base64,".data ++ encodeB64 bytes

/-- Model of the proxy regular expression `^data:([^;]+);base64,` with the
`'image/png'` default used when the match fails. -/
def mimeOfDataUrl (s : List Char) : List Char :=
  if ("data:".data).isPrefixOf s then
    let rest := s.drop 5
    let m := rest.takeWhile (fun c => c != ';')
    if !m.isEmpty && (";base64,".data).isPrefixOf (rest.drop m.length) then m
    else "image/png".data
  else "image/png".data

/-- The proxy-side decoding of the transported payload: image bytes from
`split(',')[1]` plus the media type from the regular expression. -/
def proxyDecodeImage (s : List Char) : List Nat × List Char :=
  (decodeB64 ((splitOn ',' s).getD 1 []), mimeOfDataUrl s)

/-! ## Shared result and transport types

`ClientResult` is the shape `{ success, imageUrl?, error? }` returned by every
client pipeline variant (`GenerateImageResponse` in the source).  `HttpResp`
models a resolved `fetch` response: HTTP status plus the JSON body when
`response.json()` succeeds (`none` models a body that fails to parse).  A
`JsError` models a rejected `fetch` promise: an abort (timeout) or another
network-level error. -/

inductive JsError
  | abortErr
  | netErr (msg : String)
deriving DecidableEq, Repr

/-- The `error.message` text seen by `catch` blocks. -/
def jsErrMessage : JsError → String
  | JsError.abortErr => "The user aborted a request."
  | JsError.netErr m => m

structure RespData where
  success : Option Bool
  imageUrl : Option String
  error : Option String
deriving DecidableEq, Repr

structure HttpResp where
  status : Nat
  body : Option RespData
deriving DecidableEq, Repr

/-- `response.ok`: status in the range 200-299. -/
def respOk (r : HttpResp) : Bool := 200 ≤ r.status && r.status ≤ 299

/-- A browser `File`: name, declared media type, byte size, pixel dimensions
(known after decode) and content bytes. -/
structure ClientFile where
  name : String
  ftype : String
  size : Nat
  width : Nat
  height : Nat
  bytes : List Nat
deriving DecidableEq, Repr

structure ClientResult where
  success : Bool
  imageUrl : Option String
  error : Option String
deriving DecidableEq, Repr

def failRes (msg : String) : ClientResult := ⟨false, none, some msg⟩

/-- JavaScript truthiness of a possibly-undefined string. -/
def truthyStr : Option String → Bool
  | none => false
  | some s => !s.isEmpty

/-- JavaScript truthiness of a possibly-undefined boolean. -/
def truthyBool : Option Bool → Bool
  | none => false
  | some b => b

/-- JavaScript `o || d` on a possibly-undefined string. -/
def orDefault (o : Option String) (d : String) : String :=
  match o with
  | some m => if m.isEmpty then d else m
  | none => d

/-- JavaScript `String.prototype.includes` (substring containment). -/
def includesChars (pat : List Char) : List Char → Bool
  | [] => pat.isPrefixOf []
  | c :: rest => pat.isPrefixOf (c :: rest) || includesChars pat rest

def includesStr (pat s : String) : Bool := includesChars pat.data s.data

/-! ## Input Validator -/

/-- The fixed allow-list of declared media types. -/
def supportedTypes : List String := ["image/png", "image/jpeg", "image/jpg", "image/gif"]

/-! ## Image Preprocessor (`compressImage`) -/

/-- The policy constant bounding both pixel edges ("Max width or height"). -/
def maxDimension : Nat := 1024

/-- The dimension computation of `compressImage`: scale so that the larger
edge equals `maxDimension`, preserving aspect ratio.  Canvas dimensions are
integral, so the scaled edge is truncated (floor), as assigning a fractional
number to `canvas.width`/`canvas.height` does. -/
def compressDims (width height : Nat) : Nat × Nat :=
  if width > height then
    if width > maxDimension then (maxDimension, height * maxDimension / width)
    else (width, height)
  else
    if height > maxDimension then (width * maxDimension / height, maxDimension)
    else (width, height)

/-- The re-encoding request `canvas.toBlob(cb, 'image/jpeg', 0.8)` issued by
`compressImage`: canonical output format and fixed quality factor. -/
structure CanvasEncodeCall where
  format : String
  quality : ℚ
deriving Repr

def toBlobCall : CanvasEncodeCall := ⟨"image/jpeg", 0.8⟩

/-- `compressImage` (the `File`-returning variant shared by
`src/services/openai.ts`, part_001 and part_002): resize via `compressDims`,
then re-encode through the canvas.  `canvasBlob` is the bytes produced by
`canvas.toBlob`; when the canvas yields no blob the original file is resolved
unchanged. -/
def compressImage (canvasBlob : Option (List Nat)) (file : ClientFile) : ClientFile :=
  let wh := compressDims file.width file.height
  match canvasBlob with
  | some bs => ⟨file.name, "image/jpeg", bs.length, wh.1, wh.2, bs⟩
  | none => file

/-! ## Payload Encoder -/

/-- `fileToBase64`: `FileReader.readAsDataURL`, producing the full data URL. -/
def fileToBase64 (f : ClientFile) : List Char := dataUrl f.ftype.data f.bytes

/-- The compression decision of the part_001/part_002 clients: compress when
above 50MB, also compress when above 10MB, otherwise keep the original. -/
def processedFile (canvasBlob : Option (List Nat)) (file : ClientFile) : ClientFile :=
  if file.size > 50 * 1024 * 1024 then compressImage canvasBlob file
  else if file.size > 10 * 1024 * 1024 then compressImage canvasBlob file
  else file

/-! ## Dispatch Orchestrator: retry loop of the part_001 client

`while (retryCount <= maxRetries) { try { fetch...; break } catch { retryCount++;
if (retryCount > maxRetries) throw; backoff } }`.  The transport stub maps the
current `retryCount` to the outcome of that fetch.  The result counts the
fetch calls made and gives the final response or the propagated error. -/

def maxRetries : Nat := 2

def runFetchLoop (transport : Nat → Except JsError HttpResp) :
    Nat → Nat → Nat × Except JsError HttpResp
  | 0, _ => (0, Except.error (JsError.netErr "loop fuel exhausted"))
  | fuel + 1, retryCount =>
    match transport retryCount with
    | Except.ok resp => (1, Except.ok resp)
    | Except.error e =>
      if retryCount + 1 > maxRetries then (1, Except.error e)
      else
        let rest := runFetchLoop transport fuel (retryCount + 1)
        (rest.1 + 1, rest.2)

/-- The status-specific messages used when a non-ok response has no JSON
body (part_001 lines 268-287). -/
def httpErrorMessage (status : Nat) : String :=
  if status = 504 then
    "Request timed out. The image may be too large or complex. Please try with a smaller or simpler image."
  else if status = 408 then "Request timed out. Please try again with a smaller image."
  else if status = 413 then "Image file is too large. Please use a smaller image."
  else if status = 429 then "Too many requests. Please wait a moment and try again."
  else if status = 500 then "Server error. Please try again in a few moments."
  else "Server error (" ++ toString status ++ "). Please try again."

/-- The part_001 client pipeline `generateSouthParkImage`: validate the
declared type, conditionally compress, encode, dispatch with the retry loop,
then normalize the response.  Returns the number of fetch calls made paired
with the result.  `transport` maps (attempt index, request payload) to the
fetch outcome. -/
def generateSouthParkImage001 (canvasBlob : Option (List Nat))
    (transport : Nat → List Char → Except JsError HttpResp)
    (file : ClientFile) : Nat × ClientResult :=
  if !(supportedTypes.contains file.ftype) then
    (0, failRes ("Unsupported file type: " ++ file.ftype ++ ". Please use PNG, JPEG, or GIF."))
  else
    match runFetchLoop
        (fun i => transport i (fileToBase64 (processedFile canvasBlob file)))
        (maxRetries + 1) 0 with
    | (n, Except.error e) => (n, failRes ("Failed to generate image: " ++ jsErrMessage e))
    | (n, Except.ok resp) =>
      if !(respOk resp) then
        match resp.body with
        | some d => (n, failRes (orDefault d.error "Failed to generate image"))
        | none => (n, failRes (httpErrorMessage resp.status))
      else
        match resp.body with
        | none => (n, failRes ("Failed to generate image: Unexpected end of JSON input"))
        | some d =>
          if !(truthyBool d.success) || !(truthyStr d.imageUrl) then
            (n, failRes (orDefault d.error "No image URL returned"))
          else
            (n, ⟨true, d.imageUrl, none⟩)

/-! ## Dispatch Orchestrator: retry loop with background fallback (part_002)

Identical to the part_001 loop except that when the first attempt (and only
the first: `retryCount === 0`) is aborted by the 35s timeout, the client
issues one call to the long-running background endpoint instead of retrying
the primary for that failure; a failure of that background call is then
handled by the ordinary retry path. -/

inductive Endpoint
  | primaryEp
  | backgroundEp
deriving DecidableEq, Repr

def runFetchLoopFB (primary : Nat → Except JsError HttpResp)
    (bg : Except JsError HttpResp) :
    Nat → Nat → List Endpoint × Except JsError HttpResp
  | 0, _ => ([], Except.error (JsError.netErr "loop fuel exhausted"))
  | fuel + 1, retryCount =>
    match primary retryCount with
    | Except.ok resp => ([Endpoint.primaryEp], Except.ok resp)
    | Except.error e =>
      if e = JsError.abortErr ∧ retryCount = 0 then
        match bg with
        | Except.ok resp => ([Endpoint.primaryEp, Endpoint.backgroundEp], Except.ok resp)
        | Except.error be =>
          if retryCount + 1 > maxRetries then
            ([Endpoint.primaryEp, Endpoint.backgroundEp], Except.error be)
          else
            let rest := runFetchLoopFB primary bg fuel (retryCount + 1)
            (Endpoint.primaryEp :: Endpoint.backgroundEp :: rest.1, rest.2)
      else
        if retryCount + 1 > maxRetries then ([Endpoint.primaryEp], Except.error e)
        else
          let rest := runFetchLoopFB primary bg fuel (retryCount + 1)
          (Endpoint.primaryEp :: rest.1, rest.2)

/-! ## Transformation Proxy (server side)

Model of the Netlify `generate-image` handler (the `gpt-image-1` variant):
CORS preflight, method check, credential checks, body parsing, payload
decoding, the multipart upstream request, and normalization of the upstream
response shapes (remote URL or inline base64 blob). -/

/-- The fixed style directive appended to every upstream request. -/
def southParkPrompt : String :=
  "Transform this image into a cartoon illustration in the distinctive South Park TV show animation style. Create original cartoon characters inspired by the composition and general scene, using South Park\x27s signature art style:\n\nArt Style Requirements:\n• Large round heads (40–50% of character height)\n• Big circular white eyes with small black pupils\n• Simple mitten-style hands without individual fingers\n• Small blocky bodies with simplified limbs\n• Solid, flat colors with bold black outlines\n• No shading, gradients, or realistic textures\n\nCharacter Design:\n• Create new cartoon characters inspired by the scene\n• Use South Park\x27s typical color palette and character proportions\n• Maintain the general composition and arrangement from the reference\n• Apply South Park\x27s signature clothing and accessory style\n\nBackground:\n• Simplify to either a flat color background or classic South Park setting\n• Use the show\x27s typical environmental style (snowy mountain town, simple interiors, etc.)\n\nOutput Quality:\n• Clean, sharp illustration matching official South Park animation quality\n• Maintain South Park\x27s characteristic simplicity and bold visual style"

/-- One element of the upstream `data` array: `{ url?, b64_json? }`. -/
structure UpstreamImageData where
  url : Option String
  b64_json : Option String
deriving DecidableEq, Repr

/-- Parsed JSON body of the upstream response: `error.message` for failures,
the `data` array for successes. -/
structure UpstreamBody where
  errMsg : Option String
  data : Option (List UpstreamImageData)
deriving DecidableEq, Repr

structure UpstreamResp where
  status : Nat
  bodyJson : Option UpstreamBody
deriving DecidableEq, Repr

/-- Outcome of the proxy's single upstream fetch: a resolved response, or a
rejection (network failure) whose message reaches the catch block. -/
inductive UpstreamOutcome
  | resp (r : UpstreamResp)
  | thrown (msg : String)
deriving DecidableEq, Repr

/-- The multipart request the proxy builds for the upstream service. -/
structure UpstreamRequest where
  modelName : String
  prompt : String
  filename : String
  contentType : String
  imageBytes : List Nat
  sizeParam : String
  qualityParam : String
deriving DecidableEq, Repr

/-- The destructured `{ image }` of a parsed request body; the connectivity
probe `{ test: true }` parses with `image` undefined. -/
structure ReqBody where
  image : Option (List Char)
deriving DecidableEq, Repr

/-- A Netlify invocation event: HTTP method, whether `event.body` is present,
and the result of `JSON.parse` on it (`none` models a parse exception). -/
structure NetlifyEvent where
  httpMethod : String
  hasBody : Bool
  parsed : Option ReqBody
deriving DecidableEq, Repr

/-- A proxy response body: the empty preflight body, or a JSON object whose
`success`, `imageUrl` and `error` fields may each be absent. -/
inductive ProxyBody
  | emptyBody
  | json (success : Option Bool) (imageUrl : Option String) (error : Option String)
deriving DecidableEq, Repr

structure ProxyResult where
  statusCode : Nat
  body : ProxyBody
  upstreamRequests : List UpstreamRequest
deriving DecidableEq, Repr

/-- `mimeType.split('/')[1] || 'png'`. -/
def extOfMime (mime : List Char) : String :=
  match (splitOn '/' mime).get? 1 with
  | none => "png"
  | some e => if e.isEmpty then "png" else String.mk e

/-- The TypeError message raised by `image.length` / `split(',')[1].length`
when the value is undefined. -/
def typeErrLengthMsg : String := "Cannot read properties of undefined (reading \x27length\x27)"

/-- The Netlify `generate-image` handler.  Returns the HTTP response together
with the list of requests issued to the upstream service. -/
def proxyHandler (apiKey : Option String) (event : NetlifyEvent)
    (upstream : UpstreamOutcome) : ProxyResult :=
  if event.httpMethod = "OPTIONS" then ⟨200, ProxyBody.emptyBody, []⟩
  else if !(event.httpMethod = "POST") then
    ⟨405, ProxyBody.json none none (some "Method not allowed"), []⟩
  else
    match apiKey with
    | none =>
      ⟨500, ProxyBody.json (some false) none
        (some "OpenAI API key not configured. Please check your Netlify environment variables."), []⟩
    | some key =>
      if includesStr "your_ope" key || includesStr "************" key then
        ⟨500, ProxyBody.json (some false) none
          (some "OpenAI API key is still using placeholder value. Please check your Netlify environment variables."), []⟩
      else if !event.hasBody then
        ⟨400, ProxyBody.json (some false) none (some "No image data provided"), []⟩
      else
        match event.parsed with
        | none =>
          ⟨500, ProxyBody.json (some false) none
            (some "Failed to generate image: Unexpected token in JSON"), []⟩
        | some body =>
          match body.image with
          | none =>
            ⟨500, ProxyBody.json (some false) none
              (some ("Failed to generate image: " ++ typeErrLengthMsg)), []⟩
          | some image =>
            match (splitOn ',' image).get? 1 with
            | none =>
              ⟨500, ProxyBody.json (some false) none
                (some ("Failed to generate image: " ++ typeErrLengthMsg)), []⟩
            | some base64Data =>
              let imageBuffer := decodeB64 base64Data
              let mimeType := mimeOfDataUrl image
              let req : UpstreamRequest :=
                ⟨"gpt-image-1", southParkPrompt, "image." ++ extOfMime mimeType,
                  String.mk mimeType, imageBuffer, "1024x1024", "medium"⟩
              match upstream with
              | UpstreamOutcome.thrown m =>
                ⟨500, ProxyBody.json (some false) none
                  (some ("Failed to generate image: " ++ m)), [req]⟩
              | UpstreamOutcome.resp r =>
                if !(200 ≤ r.status && r.status ≤ 299) then
                  match r.bodyJson with
                  | none =>
                    ⟨500, ProxyBody.json (some false) none
                      (some "Failed to generate image: Unexpected end of JSON input"), [req]⟩
                  | some b =>
                    ⟨r.status, ProxyBody.json (some false) none
                      (some ("OpenAI Error: " ++ orDefault b.errMsg "Unknown error")), [req]⟩
                else
                  match r.bodyJson with
                  | none =>
                    ⟨500, ProxyBody.json (some false) none
                      (some "Failed to generate image: Unexpected end of JSON input"), [req]⟩
                  | some b =>
                    match b.data with
                    | none =>
                      ⟨500, ProxyBody.json (some false) none
                        (some "No image data returned from OpenAI Image API"), [req]⟩
                    | some [] =>
                      ⟨500, ProxyBody.json (some false) none
                        (some "No image data returned from OpenAI Image API"), [req]⟩
                    | some (d0 :: _) =>
                      if truthyStr d0.url then
                        ⟨200, ProxyBody.json (some true) d0.url none, [req]⟩
                      else if truthyStr d0.b64_json then
                        ⟨200, ProxyBody.json (some true)
                          (some ("data:image/png;base64," ++ d0.b64_json.getD "")) none, [req]⟩
                      else
                        ⟨500, ProxyBody.json (some false) none
                          (some "No image URL or base64 data in response"), [req]⟩

/-! ## The `src/services/openai.ts` client pipeline -/

/-- One element of the `output` array of the Responses API. -/
structure OutputItem where
  otype : String
  result : Option String
deriving DecidableEq, Repr

/-- Parsed JSON body of an OpenAI Responses API reply. -/
structure OAIBody where
  errMsg : Option String
  output : Option (List OutputItem)
deriving DecidableEq, Repr

structure OAIResp where
  status : Nat
  bodyJson : Option OAIBody
deriving DecidableEq, Repr

/-- `data.output?.map(o => o.type).join(', ') || 'none'`. -/
def availableTypes (output : Option (List OutputItem)) : String :=
  match output with
  | none => "none"
  | some l =>
    let j := String.intercalate ", " (l.map (fun o => o.otype))
    if j.isEmpty then "none" else j

/-- The `generateSouthParkImage` of `src/services/openai.ts`: credential
checks, type validation, 50MB compression threshold, base64 conversion, one
fetch to the OpenAI Responses API, and extraction of the
`image_generation_call` output item.  `mkBlobUrl` stands for
`URL.createObjectURL` on the decoded image bytes. -/
def generateSouthParkImageTs (apiKey : Option String) (canvasBlob : Option (List Nat))
    (fetchRes : Except JsError OAIResp) (mkBlobUrl : List Nat → String)
    (file : ClientFile) : ClientResult :=
  match apiKey with
  | none =>
    failRes "OpenAI API key not configured. Please add VITE_OPENAI_API_KEY to your environment variables."
  | some key =>
    if includesStr "your_ope" key || includesStr "************" key then
      failRes "OpenAI API key is still using placeholder value. Please check your Netlify environment variables."
    else if !(supportedTypes.contains file.ftype) then
      failRes ("Unsupported file type: " ++ file.ftype ++ ". Please use PNG, JPEG, or GIF.")
    else
      let pf := if file.size > 50 * 1024 * 1024 then compressImage canvasBlob file else file
      let _base64Image := (splitOn ',' (fileToBase64 pf)).getD 1 []
      match fetchRes with
      | Except.error e => failRes ("Failed to generate image: " ++ jsErrMessage e)
      | Except.ok resp =>
        if !(200 ≤ resp.status && resp.status ≤ 299) then
          match resp.bodyJson with
          | none => failRes "Failed to generate image: Unexpected end of JSON input"
          | some b => failRes ("OpenAI Error: " ++ orDefault b.errMsg "Unknown error")
        else
          match resp.bodyJson with
          | none => failRes "Failed to generate image: Unexpected end of JSON input"
          | some b =>
            match b.output with
            | none =>
              failRes "No image generation call found in response. Available output types: none"
            | some items =>
              match items.filter (fun o => o.otype == "image_generation_call") with
              | [] =>
                failRes ("No image generation call found in response. Available output types: " ++
                  availableTypes (some items))
              | c :: _ =>
                match c.result with
                | none => failRes "No image data returned from GPT Image"
                | some ib =>
                  if ib.isEmpty then failRes "No image data returned from GPT Image"
                  else ⟨true, some (mkBlobUrl (decodeB64 ib.data)), none⟩

/-! ## Composition of the part_001 client with the proxy handler -/

/-- How the client sees a proxy response. -/
def respOfProxy (p : ProxyResult) : HttpResp :=
  match p.body with
  | ProxyBody.emptyBody => ⟨p.statusCode, none⟩
  | ProxyBody.json s u e => ⟨p.statusCode, some ⟨s, u, e⟩⟩

/-- A POST invocation whose parsed JSON body is `{ image: payload }`. -/
def postEvent (payload : List Char) : NetlifyEvent := ⟨"POST", true, some ⟨some payload⟩⟩

/-- The transport obtained by answering every client fetch with the proxy
handler's response on the sent payload. -/
def composedTransport (apiKey : Option String) (upstream : UpstreamOutcome) :
    Nat → List Char → Except JsError HttpResp :=
  fun _ payload => Except.ok (respOfProxy (proxyHandler apiKey (postEvent payload) upstream))

/-! ### The one-variant invariant (C9) -/

/-- A client result populates exactly one variant: success carries an image
reference and no error, failure carries an error and no image reference. -/
def clientResultInv (r : ClientResult) : Prop :=
  (r.success = true → r.imageUrl.isSome = true ∧ r.error = none) ∧
  (r.success = false → r.error.isSome = true ∧ r.imageUrl = none)

/-- The same invariant on a proxy response body, conditional on the
`success` discriminant being present. -/
def proxyBodyInv : ProxyBody → Prop
  | ProxyBody.emptyBody => True
  | ProxyBody.json s u e =>
    (s = some true → u.isSome = true ∧ e = none) ∧
    (s = some false → e.isSome = true ∧ u = none)


/-! ### Round-trip lemmas -/

theorem charSextet_sextetChar : ∀ n, n < 64 → charSextet (sextetChar n) = n := by decide

theorem b64Chars_length : b64Chars.length = 64 := by decide

theorem sextetChar_ne_eq (n : Nat) : sextetChar n ≠ '=' := by
  by_cases h : n < 64
  · exact (show ∀ m, m < 64 → sextetChar m ≠ '=' by decide) n h
  · unfold sextetChar
    rw [List.getD_eq_default]
    · decide
    · rw [b64Chars_length]; omega

theorem sextetChar_ne_comma (n : Nat) : sextetChar n ≠ ',' := by
  by_cases h : n < 64
  · exact (show ∀ m, m < 64 → sextetChar m ≠ ',' by decide) n h
  · unfold sextetChar
    rw [List.getD_eq_default]
    · decide
    · rw [b64Chars_length]; omega

theorem decodeB64_pad2 (c1 c2 : Char) :
    decodeB64 [c1, c2, '=', '='] = [charSextet c1 * 4 + charSextet c2 / 16] := by
  unfold decodeB64
  rw [if_pos rfl]

theorem decodeB64_pad1 (c1 c2 c3 : Char) (h : c3 ≠ '=') :
    decodeB64 [c1, c2, c3, '='] =
      [charSextet c1 * 4 + charSextet c2 / 16, charSextet c2 % 16 * 16 + charSextet c3 / 4] := by
  unfold decodeB64
  rw [if_neg h, if_pos rfl]

theorem decodeB64_cons (c1 c2 c3 c4 : Char) (rest : List Char) (h3 : c3 ≠ '=') (h4 : c4 ≠ '=') :
    decodeB64 (c1 :: c2 :: c3 :: c4 :: rest) =
      (charSextet c1 * 4 + charSextet c2 / 16) ::
      (charSextet c2 % 16 * 16 + charSextet c3 / 4) ::
      (charSextet c3 % 4 * 64 + charSextet c4) :: decodeB64 rest := by
  conv_lhs => rw [decodeB64]
  rw [if_neg h3, if_neg h4]

theorem decodeB64_encodeB64 : ∀ l : List Nat, (∀ b ∈ l, b < 256) →
    decodeB64 (encodeB64 l) = l
  | [], _ => rfl
  | [a], h => by
    have ha : a < 256 := h a (by simp)
    have h1 : a / 4 < 64 := by omega
    have h2 : a % 4 * 16 < 64 := by omega
    have he : encodeB64 [a] = [sextetChar (a / 4), sextetChar (a % 4 * 16), '=', '='] := rfl
    rw [he, decodeB64_pad2, charSextet_sextetChar _ h1, charSextet_sextetChar _ h2]
    simp only [List.cons.injEq, and_true]
    omega
  | [a, b], h => by
    have ha : a < 256 := h a (by simp)
    have hb : b < 256 := h b (by simp)
    have h1 : a / 4 < 64 := by omega
    have h2 : a % 4 * 16 + b / 16 < 64 := by omega
    have h3 : b % 16 * 4 < 64 := by omega
    have he : encodeB64 [a, b] =
        [sextetChar (a / 4), sextetChar (a % 4 * 16 + b / 16), sextetChar (b % 16 * 4), '='] := rfl
    rw [he, decodeB64_pad1 _ _ _ (sextetChar_ne_eq _),
      charSextet_sextetChar _ h1, charSextet_sextetChar _ h2, charSextet_sextetChar _ h3]
    simp only [List.cons.injEq, and_true]
    exact ⟨by omega, by omega⟩
  | a :: b :: c :: rest, h => by
    have ha : a < 256 := h a (by simp)
    have hb : b < 256 := h b (by simp)
    have hc : c < 256 := h c (by simp)
    have h1 : a / 4 < 64 := by omega
    have h2 : a % 4 * 16 + b / 16 < 64 := by omega
    have h3 : b % 16 * 4 + c / 64 < 64 := by omega
    have h4 : c % 64 < 64 := by omega
    have ih := decodeB64_encodeB64 rest (fun x hx => h x (by simp [hx]))
    have he : encodeB64 (a :: b :: c :: rest) =
        sextetChar (a / 4) :: sextetChar (a % 4 * 16 + b / 16) ::
        sextetChar (b % 16 * 4 + c / 64) :: sextetChar (c % 64) :: encodeB64 rest := rfl
    rw [he, decodeB64_cons _ _ _ _ _ (sextetChar_ne_eq _) (sextetChar_ne_eq _),
      charSextet_sextetChar _ h1, charSextet_sextetChar _ h2,
      charSextet_sextetChar _ h3, charSextet_sextetChar _ h4, ih]
    simp only [List.cons.injEq, and_true]
    exact ⟨by omega, by omega, by omega⟩

theorem comma_not_mem_encodeB64 : ∀ l : List Nat, ',' ∉ encodeB64 l
  | [] => by simp [encodeB64]
  | [a] => by
    intro hmem
    simp only [encodeB64, List.mem_cons, List.not_mem_nil, or_false] at hmem
    rcases hmem with h | h | h | h
    · exact sextetChar_ne_comma _ h.symm
    · exact sextetChar_ne_comma _ h.symm
    · exact absurd h (by decide)
    · exact absurd h (by decide)
  | [a, b] => by
    intro hmem
    simp only [encodeB64, List.mem_cons, List.not_mem_nil, or_false] at hmem
    rcases hmem with h | h | h | h
    · exact sextetChar_ne_comma _ h.symm
    · exact sextetChar_ne_comma _ h.symm
    · exact sextetChar_ne_comma _ h.symm
    · exact absurd h (by decide)
  | a :: b :: c :: rest => by
    have ih := comma_not_mem_encodeB64 rest
    intro hmem
    simp only [encodeB64, List.mem_cons] at hmem
    rcases hmem with h | h | h | h | h
    · exact sextetChar_ne_comma _ h.symm
    · exact sextetChar_ne_comma _ h.symm
    · exact sextetChar_ne_comma _ h.symm
    · exact sextetChar_ne_comma _ h.symm
    · exact ih h

theorem splitOn_not_mem (sep : Char) : ∀ l : List Char, sep ∉ l → splitOn sep l = [l]
  | [], _ => rfl
  | c :: rest, h => by
    have hc : ¬ c = sep := fun hcs => h (hcs ▸ List.mem_cons_self c rest)
    have hr : sep ∉ rest := fun hm => h (List.mem_cons_of_mem c hm)
    simp only [splitOn, if_neg hc, splitOn_not_mem sep rest hr]

theorem splitOn_append (sep : Char) :
    ∀ l1 l2 : List Char, sep ∉ l1 → splitOn sep (l1 ++ sep :: l2) = l1 :: splitOn sep l2
  | [], l2, _ => by simp [splitOn]
  | c :: rest, l2, h => by
    have hc : ¬ c = sep := fun hcs => h (hcs ▸ List.mem_cons_self c rest)
    have hr : sep ∉ rest := fun hm => h (List.mem_cons_of_mem c hm)
    have ih := splitOn_append sep rest l2 hr
    simp only [List.cons_append, splitOn, if_neg hc]
    rw [show rest.append (sep :: l2) = rest ++ sep :: l2 from rfl, ih]

theorem isPrefixOf_append_self : ∀ l1 l2 : List Char, l1.isPrefixOf (l1 ++ l2) = true
  | [], _ => by simp [List.isPrefixOf]
  | c :: rest, l2 => by
    simp only [List.cons_append, List.isPrefixOf, Bool.and_eq_true, beq_self_eq_true, true_and]
    exact isPrefixOf_append_self rest l2

theorem takeWhile_append_stop (p : Char → Bool) :
    ∀ (l1 : List Char) (c : Char) (l2 : List Char), (∀ x ∈ l1, p x = true) → p c = false →
      (l1 ++ c :: l2).takeWhile p = l1
  | [], c, l2, _, hc => by simp [List.takeWhile, hc]
  | x :: rest, c, l2, h, hc => by
    have hx : p x = true := h x (by simp)
    have ih := takeWhile_append_stop p rest c l2 (fun y hy => h y (by simp [hy])) hc
    simp only [List.cons_append, List.takeWhile, hx]
    rw [show rest.append (c :: l2) = rest ++ c :: l2 from rfl, ih]

theorem mimeOfDataUrl_dataUrl (mime : List Char) (bytes : List Nat)
    (hne : mime ≠ []) (hsemi : ';' ∉ mime) :
    mimeOfDataUrl (dataUrl mime bytes) = mime := by
  have hshape : dataUrl mime bytes =
      "data:".data ++ (mime ++ (";base64,".data ++ encodeB64 bytes)) := by
    simp [dataUrl]
  rw [hshape]
  unfold mimeOfDataUrl
  rw [if_pos (isPrefixOf_append_self _ _)]
  have hdrop : ("data:".data ++ (mime ++ (";base64,".data ++ encodeB64 bytes))).drop 5 =
      mime ++ (";base64,".data ++ encodeB64 bytes) := by
    have h5 : ("data:".data).length = 5 := by decide
    rw [show (5 : Nat) = ("data:".data).length from h5.symm, List.drop_left]
  simp only [hdrop]
  have hsplit : (mime ++ (";base64,".data ++ encodeB64 bytes)) =
      mime ++ (';' :: ("base64,".data ++ encodeB64 bytes)) := by simp
  rw [hsplit]
  have htake : (mime ++ (';' :: ("base64,".data ++ encodeB64 bytes))).takeWhile
      (fun c => c != ';') = mime := by
    apply takeWhile_append_stop
    · intro x hx
      have : x ≠ ';' := fun hxe => hsemi (hxe ▸ hx)
      simp [this]
    · simp
  rw [htake]
  have hdrop2 : (mime ++ (';' :: ("base64,".data ++ encodeB64 bytes))).drop mime.length =
      ';' :: ("base64,".data ++ encodeB64 bytes) := List.drop_left _ _
  rw [hdrop2]
  have hempty : mime.isEmpty = false := by
    cases mime with
    | nil => exact absurd rfl hne
    | cons c rest => rfl
  have hpre : (";base64,".data).isPrefixOf (';' :: ("base64,".data ++ encodeB64 bytes)) = true := by
    have : (';' :: ("base64,".data ++ encodeB64 bytes)) = ";base64,".data ++ encodeB64 bytes := by
      simp
    rw [this]
    exact isPrefixOf_append_self _ _
  rw [hempty, hpre]
  simp

/-- C4 core: splitting the data URL at the first comma recovers the base64
segment exactly. -/
theorem splitOn_dataUrl (mime : List Char) (bytes : List Nat) (hcomma : ',' ∉ mime) :
    splitOn ',' (dataUrl mime bytes) = ["data:".data ++ mime ++ ";base64".data, encodeB64 bytes] := by
  have hshape : dataUrl mime bytes =
      ("data:".data ++ mime ++ ";base64".data) ++ ',' :: encodeB64 bytes := by
    simp [dataUrl]
  rw [hshape, splitOn_append, splitOn_not_mem _ _ (comma_not_mem_encodeB64 bytes)]
  intro hmem
  rcases List.mem_append.mp hmem with h | h
  · rcases List.mem_append.mp h with h2 | h2
    · simp at h2
    · exact hcomma h2
  · simp at h


/-! ## Claim theorems -/

/-- C4: for every image byte sequence and media type, encoding into the
base64 data URL and decoding on the proxy side (split at the comma plus the
media-type regular expression) recovers byte-identical image data and the
original media type tag.  The media type must be a well-formed tag: nonempty
and free of the `';'` and `','` delimiters, as every real media type is. -/
theorem payload_roundtrip (mime : List Char) (bytes : List Nat)
    (hne : mime ≠ []) (hsemi : ';' ∉ mime) (hcomma : ',' ∉ mime)
    (hbytes : ∀ b ∈ bytes, b < 256) :
    proxyDecodeImage (dataUrl mime bytes) = (bytes, mime) := by
  unfold proxyDecodeImage
  rw [splitOn_dataUrl mime bytes hcomma, mimeOfDataUrl_dataUrl mime bytes hne hsemi]
  simp only [List.getD, List.get?, Option.getD_some]
  rw [decodeB64_encodeB64 bytes hbytes]

theorem payload_roundtrip_witness :
    proxyDecodeImage (dataUrl ("image/jpeg".data) [0, 255, 16]) = ([0, 255, 16], "image/jpeg".data) :=
  payload_roundtrip _ _ (by decide) (by decide) (by decide) (by decide)

/-- C6: whenever the larger pixel edge exceeds `maxDimension` (1024), the
preprocessor output has its larger edge exactly 1024 and the smaller edge is
the proportionally scaled value (the floor of `smaller * 1024 / larger`,
characterized by the two product bounds, i.e. aspect ratio within rounding
tolerance); when both edges are within the bound the dimensions are kept. -/
theorem compressDims_spec (w h : Nat) :
    (maxDimension < max w h →
      max (compressDims w h).1 (compressDims w h).2 = maxDimension ∧
      min (compressDims w h).1 (compressDims w h).2 = min w h * maxDimension / max w h ∧
      max w h * min (compressDims w h).1 (compressDims w h).2 ≤ min w h * maxDimension ∧
      min w h * maxDimension < max w h * (min (compressDims w h).1 (compressDims w h).2 + 1)) ∧
    (max w h ≤ maxDimension → compressDims w h = (w, h)) := by
  constructor
  · intro hbig
    by_cases hwh : w > h
    · have hmaxwh : max w h = w := Nat.max_eq_left (le_of_lt hwh)
      have hminwh : min w h = h := Nat.min_eq_right (le_of_lt hwh)
      have hw : w > maxDimension := by rw [hmaxwh] at hbig; exact hbig
      have hout : compressDims w h = (maxDimension, h * maxDimension / w) := by
        unfold compressDims
        rw [if_pos hwh, if_pos hw]
      have hwpos : 0 < w := by unfold maxDimension at hw; omega
      have hqlt : h * maxDimension / w < maxDimension := by
        rw [Nat.div_lt_iff_lt_mul hwpos]
        unfold maxDimension at *
        omega
      have hd := Nat.div_add_mod (h * maxDimension) w
      have hm : h * maxDimension % w < w := Nat.mod_lt _ hwpos
      rw [hout, hmaxwh, hminwh]
      dsimp only
      rw [Nat.min_eq_right (le_of_lt hqlt), Nat.max_eq_left (le_of_lt hqlt)]
      refine ⟨rfl, rfl, ?_, ?_⟩
      · have hz : 0 ≤ h * maxDimension % w := Nat.zero_le _
        linarith
      · rw [Nat.mul_succ]
        linarith
    · push_neg at hwh
      have hmaxwh : max w h = h := Nat.max_eq_right hwh
      have hminwh : min w h = w := Nat.min_eq_left hwh
      have hh : h > maxDimension := by rw [hmaxwh] at hbig; exact hbig
      have hcond : ¬ w > h := by omega
      have hout : compressDims w h = (w * maxDimension / h, maxDimension) := by
        unfold compressDims
        rw [if_neg hcond, if_pos hh]
      have hhpos : 0 < h := by unfold maxDimension at hh; omega
      have hqle : w * maxDimension / h ≤ maxDimension := by
        have h1 : w * maxDimension / h ≤ h * maxDimension / h :=
          Nat.div_le_div_right (by unfold maxDimension; omega)
        rwa [Nat.mul_div_cancel_left _ hhpos] at h1
      have hd := Nat.div_add_mod (w * maxDimension) h
      have hm : w * maxDimension % h < h := Nat.mod_lt _ hhpos
      rw [hout, hmaxwh, hminwh]
      dsimp only
      rw [Nat.min_eq_left hqle, Nat.max_eq_right hqle]
      refine ⟨rfl, rfl, ?_, ?_⟩
      · have hz : 0 ≤ w * maxDimension % h := Nat.zero_le _
        linarith
      · rw [Nat.mul_succ]
        linarith
  · intro hsmall
    have hwle : w ≤ maxDimension := le_trans (Nat.le_max_left w h) hsmall
    have hhle : h ≤ maxDimension := le_trans (Nat.le_max_right w h) hsmall
    unfold compressDims
    by_cases hwh : w > h
    · rw [if_pos hwh, if_neg (by omega)]
    · rw [if_neg hwh, if_neg (by omega)]

theorem compressDims_spec_witness :
    max (compressDims 4000 2000).1 (compressDims 4000 2000).2 = maxDimension ∧
      compressDims 800 600 = (800, 600) :=
  ⟨((compressDims_spec 4000 2000).1 (by decide)).1, (compressDims_spec 800 600).2 (by decide)⟩

/-- C10: `compressImage` never rejects.  When `canvas.toBlob` produces a blob
the result is a file of the canonical type (the fixed `toBlob` request being
JPEG at quality 0.8); when it produces no blob the original file is resolved
unchanged — so in that fallback case the output type is whatever the input
type was, not necessarily the canonical format. -/
theorem compressImage_blob_cases (file : ClientFile) (canvasBlob : Option (List Nat)) :
    (∀ bs, canvasBlob = some bs →
      (compressImage canvasBlob file).ftype = toBlobCall.format ∧
      toBlobCall.format = "image/jpeg" ∧ toBlobCall.quality = 0.8) ∧
    (canvasBlob = none → compressImage canvasBlob file = file) := by
  constructor
  · rintro bs rfl
    exact ⟨rfl, rfl, rfl⟩
  · rintro rfl
    rfl

theorem compressImage_blob_cases_witness :
    (compressImage (some [1, 2]) ⟨"a.png", "image/png", 9, 3, 3, [7]⟩).ftype = "image/jpeg" ∧
      compressImage none ⟨"a.png", "image/png", 9, 3, 3, [7]⟩ =
        ⟨"a.png", "image/png", 9, 3, 3, [7]⟩ := by
  refine ⟨?_, ?_⟩
  · have h := (compressImage_blob_cases ⟨"a.png", "image/png", 9, 3, 3, [7]⟩ (some [1, 2])).1 [1, 2] rfl
    exact h.1.trans h.2.1
  · exact (compressImage_blob_cases ⟨"a.png", "image/png", 9, 3, 3, [7]⟩ none).2 rfl

/-- C8: for every submitted image whose declared media type is not in the
allow-list, the part_001 pipeline returns a failure citing the offending type
and the number of network calls made is zero. -/
theorem validator_rejects_without_network (file : ClientFile) (canvasBlob : Option (List Nat))
    (transport : Nat → List Char → Except JsError HttpResp)
    (h : file.ftype ∉ supportedTypes) :
    generateSouthParkImage001 canvasBlob transport file =
      (0, failRes ("Unsupported file type: " ++ file.ftype ++ ". Please use PNG, JPEG, or GIF.")) := by
  have hc : supportedTypes.contains file.ftype = false := by
    cases he : supportedTypes.contains file.ftype
    · rfl
    · exact absurd (List.mem_of_elem_eq_true he) h
  unfold generateSouthParkImage001
  rw [hc]
  rfl

theorem validator_rejects_without_network_witness :
    generateSouthParkImage001 none (fun _ _ => Except.ok ⟨200, none⟩)
      ⟨"a.webp", "image/webp", 100, 10, 10, []⟩ =
      (0, failRes "Unsupported file type: image/webp. Please use PNG, JPEG, or GIF.") :=
  validator_rejects_without_network _ _ _ (by decide)

/-- C5: the code behavior at the connectivity probe `{ test: true }`: the
handler destructures `image` as undefined, throws a TypeError at
`image.length`, and the catch converts it into a 500 failure response; no
upstream call is made.  The probe is not answered with a success
acknowledgment. -/
theorem probe_behavior :
    proxyHandler (some "sk-test-abc123") ⟨"POST", true, some ⟨none⟩⟩
      (UpstreamOutcome.thrown "unused") =
      ⟨500, ProxyBody.json (some false) none
        (some ("Failed to generate image: " ++ typeErrLengthMsg)), []⟩ := rfl

/-- C7: the 4000×2000 20MB JPEG scenario, end to end.  The preprocessor
output is 1024×512 in the canonical JPEG format; the encoded payload is
tagged `data:image/jpeg`; the proxy forwards exactly one upstream request
carrying the fixed style directive and the decoded bytes; with a stubbed
upstream answering a URL-shaped success, the composed pipeline returns
Success carrying that URL after a single client fetch. -/
theorem scenario_4000x2000_e2e :
    processedFile (some [10, 20, 30]) ⟨"photo.jpg", "image/jpeg", 20 * 1024 * 1024, 4000, 2000, []⟩ =
      ⟨"photo.jpg", "image/jpeg", 3, 1024, 512, [10, 20, 30]⟩ ∧
    ("data:image/jpeg;base64,".data).isPrefixOf
      (fileToBase64 (processedFile (some [10, 20, 30])
        ⟨"photo.jpg", "image/jpeg", 20 * 1024 * 1024, 4000, 2000, []⟩)) = true ∧
    (proxyHandler (some "sk-test-abc123")
      (postEvent (fileToBase64 (processedFile (some [10, 20, 30])
        ⟨"photo.jpg", "image/jpeg", 20 * 1024 * 1024, 4000, 2000, []⟩)))
      (UpstreamOutcome.resp ⟨200, some ⟨none,
        some [⟨some "https://oai.example/result.png", none⟩]⟩⟩)).upstreamRequests.map
        (fun r => (r.prompt, r.contentType, r.imageBytes)) =
      [(southParkPrompt, "image/jpeg", [10, 20, 30])] ∧
    generateSouthParkImage001 (some [10, 20, 30])
      (composedTransport (some "sk-test-abc123")
        (UpstreamOutcome.resp ⟨200, some ⟨none,
          some [⟨some "https://oai.example/result.png", none⟩]⟩⟩))
      ⟨"photo.jpg", "image/jpeg", 20 * 1024 * 1024, 4000, 2000, []⟩ =
      (1, ⟨true, some "https://oai.example/result.png", none⟩) :=
  ⟨rfl, rfl, rfl, rfl⟩

/-! ### Retry-loop lemmas -/

theorem runFetchLoop_succeeds (t : Nat → Except JsError HttpResp) (k : Nat) (resp : HttpResp)
    (hf : ∀ i, i < k → ∃ e, t i = Except.error e) (hk : t k = Except.ok resp)
    (hle : k ≤ maxRetries) :
    runFetchLoop t (maxRetries + 1) 0 = (k + 1, Except.ok resp) := by
  unfold maxRetries at *
  interval_cases k
  · simp [runFetchLoop, hk]
  · obtain ⟨e0, h0⟩ := hf 0 (by omega)
    simp [runFetchLoop, h0, hk, maxRetries]
  · obtain ⟨e0, h0⟩ := hf 0 (by omega)
    obtain ⟨e1, h1⟩ := hf 1 (by omega)
    simp [runFetchLoop, h0, h1, hk, maxRetries]

theorem runFetchLoop_exhausts (t : Nat → Except JsError HttpResp)
    (hf : ∀ i, i ≤ maxRetries → ∃ e, t i = Except.error e) :
    ∃ e, runFetchLoop t (maxRetries + 1) 0 = (maxRetries + 1, Except.error e) := by
  obtain ⟨e0, h0⟩ := hf 0 (by unfold maxRetries; omega)
  obtain ⟨e1, h1⟩ := hf 1 (by unfold maxRetries; omega)
  obtain ⟨e2, h2⟩ := hf 2 (by unfold maxRetries; omega)
  exact ⟨e2, by simp [runFetchLoop, h0, h1, h2, maxRetries]⟩

/-- C2 (amended): with the configured maximum of 2 retries, a transport that
fails transiently exactly `k` times then succeeds with a well-formed success
response yields Success after `k + 1` attempts whenever `k ≤ maxRetries`
(including `k = maxRetries`), and a terminal failure after exactly
`maxRetries + 1` attempts whenever `k > maxRetries`. -/
theorem retry_bound (k : Nat) (transport : Nat → List Char → Except JsError HttpResp)
    (resp : HttpResp) (d : RespData) (file : ClientFile) (canvasBlob : Option (List Nat))
    (hft : file.ftype ∈ supportedTypes)
    (hfail : ∀ i, i < k → ∀ p, ∃ e, transport i p = Except.error e)
    (hsucc : ∀ p, transport k p = Except.ok resp)
    (hstat : resp.status = 200) (hbody : resp.body = some d)
    (hds : d.success = some true) (hdu : truthyStr d.imageUrl = true) :
    (k ≤ maxRetries →
      generateSouthParkImage001 canvasBlob transport file = (k + 1, ⟨true, d.imageUrl, none⟩)) ∧
    (maxRetries < k →
      (generateSouthParkImage001 canvasBlob transport file).1 = maxRetries + 1 ∧
      (generateSouthParkImage001 canvasBlob transport file).2.success = false) := by
  have hc : supportedTypes.contains file.ftype = true := List.elem_eq_true_of_mem hft
  have hok : respOk resp = true := by simp [respOk, hstat]
  constructor
  · intro hle
    have hloop := runFetchLoop_succeeds
      (fun i => transport i (fileToBase64 (processedFile canvasBlob file))) k resp
      (fun i hi => hfail i hi _) (hsucc _) hle
    unfold generateSouthParkImage001
    rw [hc, hloop]
    simp [hok, hbody, hds, hdu, truthyBool]
  · intro hgt
    have hloop := runFetchLoop_exhausts
      (fun i => transport i (fileToBase64 (processedFile canvasBlob file)))
      (fun i hi => hfail i (by omega) _)
    obtain ⟨e, he⟩ := hloop
    unfold generateSouthParkImage001
    rw [hc, he]
    simp [failRes]

theorem retry_bound_witness :
    generateSouthParkImage001 none
      (fun i _ => if i < 1 then Except.error (JsError.netErr "ECONNRESET")
        else Except.ok ⟨200, some ⟨some true, some "https://x.png", none⟩⟩)
      ⟨"a.png", "image/png", 100, 10, 10, []⟩ =
      (2, ⟨true, some "https://x.png", none⟩) :=
  (retry_bound 1
    (fun i _ => if i < 1 then Except.error (JsError.netErr "ECONNRESET")
      else Except.ok ⟨200, some ⟨some true, some "https://x.png", none⟩⟩)
    ⟨200, some ⟨some true, some "https://x.png", none⟩⟩
    ⟨some true, some "https://x.png", none⟩
    ⟨"a.png", "image/png", 100, 10, 10, []⟩ none
    (by decide)
    (fun i hi p => ⟨JsError.netErr "ECONNRESET", by
      have h0 : i = 0 := by omega
      subst h0
      rfl⟩)
    (fun p => rfl) rfl rfl rfl rfl).1 (by decide)

/-- C2 (counterexample to the claim as stated): with the configured maximum
retry count of 2, a transport that fails transiently exactly `k = 2` times
— `k` equal to the maximum, hence "at or above" it — and then succeeds makes
the pipeline report Success on the third attempt, not the
connection-exhausted failure the claim requires for `k` at the maximum. -/
theorem retry_bound_boundary_counterexample :
    (generateSouthParkImage001 none
      (fun i _ => if i < 2 then Except.error (JsError.netErr "ECONNRESET")
        else Except.ok ⟨200, some ⟨some true, some "https://x.png", none⟩⟩)
      ⟨"a.png", "image/png", 100, 10, 10, []⟩) =
      (3, ⟨true, some "https://x.png", none⟩) := rfl

/-- C3: whenever attempt `i` resolves with an HTTP error response (status
4xx/5xx), the part_001 pipeline makes no further fetch call (exactly `i + 1`
calls in total) and fails; a 429 response without a parseable JSON error body
yields the rate-limit-specific message, and a parseable error body is passed
through verbatim. -/
theorem no_retry_on_http_response (i : Nat)
    (transport : Nat → List Char → Except JsError HttpResp) (resp : HttpResp)
    (file : ClientFile) (canvasBlob : Option (List Nat))
    (hft : file.ftype ∈ supportedTypes) (hi : i ≤ maxRetries)
    (hfail : ∀ j, j < i → ∀ p, ∃ e, transport j p = Except.error e)
    (hresp : ∀ p, transport i p = Except.ok resp)
    (hstatus : 400 ≤ resp.status ∧ resp.status ≤ 599) :
    (generateSouthParkImage001 canvasBlob transport file).1 = i + 1 ∧
    (generateSouthParkImage001 canvasBlob transport file).2.success = false ∧
    (resp.status = 429 → resp.body = none →
      (generateSouthParkImage001 canvasBlob transport file).2.error =
        some "Too many requests. Please wait a moment and try again.") ∧
    (∀ d msg, resp.body = some d → d.error = some msg → msg.isEmpty = false →
      (generateSouthParkImage001 canvasBlob transport file).2.error = some msg) := by
  have hc : supportedTypes.contains file.ftype = true := List.elem_eq_true_of_mem hft
  have hok : respOk resp = false := by
    simp only [respOk]
    have : ¬ resp.status ≤ 299 := by omega
    simp [this]
  have hloop := runFetchLoop_succeeds
    (fun j => transport j (fileToBase64 (processedFile canvasBlob file))) i resp
    (fun j hj => hfail j hj _) (hresp _) hi
  unfold generateSouthParkImage001
  rw [hc, hloop]
  refine ⟨by simp [hok]; cases hb : resp.body <;> simp [failRes], ?_, ?_, ?_⟩
  · cases hb : resp.body <;> simp [hok, hb, failRes]
  · intro h429 hb
    simp [hok, hb, failRes, httpErrorMessage, h429]
  · intro d msg hb herr hne
    simp [hok, hb, failRes, orDefault, herr, hne]

theorem no_retry_on_http_response_witness :
    (generateSouthParkImage001 none (fun _ _ => Except.ok ⟨429, none⟩)
      ⟨"a.png", "image/png", 100, 10, 10, []⟩).1 = 1 ∧
    (generateSouthParkImage001 none (fun _ _ => Except.ok ⟨429, none⟩)
      ⟨"a.png", "image/png", 100, 10, 10, []⟩).2.error =
      some "Too many requests. Please wait a moment and try again." := by
  have h := no_retry_on_http_response 0 (fun _ _ => Except.ok ⟨429, none⟩) ⟨429, none⟩
    ⟨"a.png", "image/png", 100, 10, 10, []⟩ none
    (by decide) (by decide)
    (fun j hj p => absurd hj (by omega))
    (fun p => rfl) (by constructor <;> decide)
  exact ⟨h.1, h.2.2.1 rfl rfl⟩

/-! ### Fallback-loop lemmas (part_002) -/

theorem runFetchLoopFB_succ (primary : Nat → Except JsError HttpResp)
    (bg : Except JsError HttpResp) (fuel r : Nat) :
    runFetchLoopFB primary bg (fuel + 1) r =
      match primary r with
      | Except.ok resp => ([Endpoint.primaryEp], Except.ok resp)
      | Except.error e =>
        if e = JsError.abortErr ∧ r = 0 then
          match bg with
          | Except.ok resp => ([Endpoint.primaryEp, Endpoint.backgroundEp], Except.ok resp)
          | Except.error be =>
            if r + 1 > maxRetries then
              ([Endpoint.primaryEp, Endpoint.backgroundEp], Except.error be)
            else
              (Endpoint.primaryEp :: Endpoint.backgroundEp ::
                (runFetchLoopFB primary bg fuel (r + 1)).1,
                (runFetchLoopFB primary bg fuel (r + 1)).2)
        else
          if r + 1 > maxRetries then ([Endpoint.primaryEp], Except.error e)
          else
            (Endpoint.primaryEp :: (runFetchLoopFB primary bg fuel (r + 1)).1,
              (runFetchLoopFB primary bg fuel (r + 1)).2) := rfl

theorem runFetchLoopFB_no_bg (primary : Nat → Except JsError HttpResp)
    (bg : Except JsError HttpResp) :
    ∀ fuel r, 1 ≤ r → Endpoint.backgroundEp ∉ (runFetchLoopFB primary bg fuel r).1 := by
  intro fuel
  induction fuel with
  | zero => intro r hr; simp [runFetchLoopFB]
  | succ n ih =>
    intro r hr
    rw [runFetchLoopFB_succ]
    cases hp : primary r with
    | ok resp => simp
    | error e =>
      have hcond : ¬ (e = JsError.abortErr ∧ r = 0) := by
        rintro ⟨-, h0⟩
        omega
      simp only [if_neg hcond]
      by_cases hr2 : r + 1 > maxRetries
      · rw [if_pos hr2]
        simp
      · rw [if_neg hr2]
        simp only [List.mem_cons]
        rintro (h | h)
        · exact absurd h (by simp)
        · exact ih (r + 1) (by omega) h

/-- C1: for every primary/background stub, the part_002 dispatch loop calls
the background endpoint at most once per submission; when the first primary
attempt is aborted it calls the background endpoint exactly once, immediately
and instead of retrying the primary for that failure (with a successful
background call the whole dispatch is exactly one primary call followed by
one background call); and the background endpoint is called only when the
first attempt ended in an abort. -/
theorem fallback_once (primary : Nat → Except JsError HttpResp)
    (bg : Except JsError HttpResp) :
    (runFetchLoopFB primary bg (maxRetries + 1) 0).1.count Endpoint.backgroundEp ≤ 1 ∧
    (primary 0 = Except.error JsError.abortErr →
      (runFetchLoopFB primary bg (maxRetries + 1) 0).1.count Endpoint.backgroundEp = 1 ∧
      ∀ resp, bg = Except.ok resp →
        runFetchLoopFB primary bg (maxRetries + 1) 0 =
          ([Endpoint.primaryEp, Endpoint.backgroundEp], Except.ok resp)) ∧
    (Endpoint.backgroundEp ∈ (runFetchLoopFB primary bg (maxRetries + 1) 0).1 →
      primary 0 = Except.error JsError.abortErr) := by
  have hnotail := runFetchLoopFB_no_bg primary bg maxRetries 1 (by omega)
  have hcount0 : (runFetchLoopFB primary bg maxRetries 1).1.count Endpoint.backgroundEp = 0 :=
    List.count_eq_zero.mpr hnotail
  rw [runFetchLoopFB_succ]
  cases hp : primary 0 with
  | ok resp =>
    dsimp only
    refine ⟨by simp, ?_, ?_⟩
    · intro habort
      simp at habort
    · intro hmem
      simp at hmem
  | error e =>
    dsimp only
    by_cases he : e = JsError.abortErr
    · subst he
      rw [if_pos ⟨rfl, rfl⟩]
      cases hbg : bg with
      | ok resp =>
        dsimp only
        refine ⟨by simp, ?_, fun _ => rfl⟩
        intro _
        refine ⟨by simp, ?_⟩
        intro resp2 hresp2
        cases hresp2
        rfl
      | error be =>
        dsimp only
        rw [if_neg (by decide)]
        rw [hbg] at hcount0
        have hc1 : (runFetchLoopFB primary (Except.error be) maxRetries (0 + 1)).1.count
            Endpoint.backgroundEp = 0 := by
          rw [zero_add]
          exact hcount0
        refine ⟨?_, ?_, fun _ => rfl⟩
        · simp [List.count_cons, hc1]
        · intro _
          refine ⟨by simp [List.count_cons, hc1], ?_⟩
          intro resp2 hresp2
          cases hresp2
    · have hcond : ¬ (e = JsError.abortErr ∧ (0 : Nat) = 0) := by
        rintro ⟨habort, -⟩
        exact he habort
      rw [if_neg hcond, if_neg (by decide)]
      have hc1 : (runFetchLoopFB primary bg maxRetries (0 + 1)).1.count
          Endpoint.backgroundEp = 0 := by
        rw [zero_add]
        exact hcount0
      have hn1 : Endpoint.backgroundEp ∉ (runFetchLoopFB primary bg maxRetries (0 + 1)).1 := by
        rw [zero_add]
        exact hnotail
      refine ⟨by simp [List.count_cons, hc1], ?_, ?_⟩
      · intro habort
        cases habort
        exact absurd rfl he
      · intro hmem
        simp only [List.mem_cons] at hmem
        rcases hmem with h | h
        · exact absurd h (by simp)
        · exact absurd h hn1

theorem fallback_once_witness :
    runFetchLoopFB (fun _ => Except.error JsError.abortErr) (Except.ok ⟨200, none⟩)
      (maxRetries + 1) 0 =
      ([Endpoint.primaryEp, Endpoint.backgroundEp], Except.ok ⟨200, none⟩) :=
  ((fallback_once (fun _ => Except.error JsError.abortErr) (Except.ok ⟨200, none⟩)).2.1
    rfl).2 ⟨200, none⟩ rfl

theorem truthyStr_isSome {o : Option String} (h : truthyStr o = true) : o.isSome = true := by
  cases o
  · simp [truthyStr] at h
  · rfl

/-- C9: every return path of the `openai.ts` client pipeline, of the proxy
handler, and of the part_001 client pipeline satisfies the one-variant
invariant: a result with `success: true` carries an image reference and no
error, and a result with `success: false` carries an error and no image
reference. -/
theorem result_exactly_one_variant :
    (∀ apiKey canvasBlob fetchRes mkBlobUrl file,
      clientResultInv (generateSouthParkImageTs apiKey canvasBlob fetchRes mkBlobUrl file)) ∧
    (∀ apiKey event upstream, proxyBodyInv (proxyHandler apiKey event upstream).body) ∧
    (∀ canvasBlob transport file,
      clientResultInv (generateSouthParkImage001 canvasBlob transport file).2) := by
  refine ⟨?_, ?_, ?_⟩
  · intro apiKey canvasBlob fetchRes mkBlobUrl file
    unfold generateSouthParkImageTs
    repeat' split
    all_goals simp [clientResultInv, failRes]
  · intro apiKey event upstream
    unfold proxyHandler
    repeat' split
    all_goals simp_all [proxyBodyInv]
    all_goals rename_i h
    all_goals exact truthyStr_isSome h
  · intro canvasBlob transport file
    unfold generateSouthParkImage001
    repeat' split
    all_goals simp_all [clientResultInv, failRes]
    all_goals rename_i hcond
    all_goals rcases hcond with ⟨hs, hu⟩
    all_goals exact truthyStr_isSome hu

theorem result_exactly_one_variant_witness :
    Option.isSome (generateSouthParkImage001 none
      (fun _ _ => Except.ok ⟨200, some ⟨some true, some "https://y.png", none⟩⟩)
      ⟨"b.png", "image/png", 5, 4, 4, [1]⟩).2.imageUrl = true ∧
    (generateSouthParkImage001 none
      (fun _ _ => Except.ok ⟨200, some ⟨some true, some "https://y.png", none⟩⟩)
      ⟨"b.png", "image/png", 5, 4, 4, [1]⟩).2.error = none :=
  (result_exactly_one_variant.2.2 none
    (fun _ _ => Except.ok ⟨200, some ⟨some true, some "https://y.png", none⟩⟩)
    ⟨"b.png", "image/png", 5, 4, 4, [1]⟩).1 rfl

end Parkify
